import Mathlib

/-!
Verification development for the Polymarket equilibrage bot.

Shallow embedding of the scanner scoring pipeline
(`backend/services/advanced_scanner.py`) and of the autonomous trading
engine (`backend/services/auto_trading.py`, `backend/routers/trading.py`).

Modelling conventions:
* Python floats are modelled as exact rationals (ℚ); the claims under
  study are structural (weights, guards, orderings), not about IEEE
  rounding.
* `datetime` values appear only as abstract rational timestamps where
  the code compares them (the analysis cache); wall-clock effects are
  passed as explicit `now` arguments.
* Network calls are modelled by their results passed as arguments:
  an order book fetch yields `Option OrderBook` (`none` = exception or
  non-dict response), a midpoint fetch yields `Option ℚ`, an order
  placement yields a success flag.  An exception inside a guarded
  block leaves the state unchanged, exactly as the `try/except`
  handlers in the source do.
-/

namespace PolyBot

/-- Python `int(x)` truncates toward zero. -/
def py_int (q : ℚ) : ℤ := if 0 ≤ q then ⌊q⌋ else ⌈q⌉

/-! ### Scanner data model (`advanced_scanner.py`) -/

/-- One order-book level, as in the CLOB API response: a price and a size. -/
structure BookLevel where
  price : ℚ
  size : ℚ
  deriving DecidableEq

/-- An order book as returned by `get_orderbook`. -/
structure OrderBook where
  bids : List BookLevel
  asks : List BookLevel
  deriving DecidableEq

/-- Input of `_analyze_market` for one market.  `token_ids` is the list of
outcome token identifiers after the `clobTokenIds` fallback (an absent
`token_id` key yields `""`, as in `tokens[i].get("token_id", "")`).
`hours_to_resolution` is the result of `_calc_hours_to_resolution`
(`none` when no end date parses).  `book_yes`/`book_no` are the results
of the two `get_orderbook` calls (`none` models an exception or a
non-dict response). -/
structure MarketData where
  id : String
  question : String
  token_ids : List String
  volume24hr : ℚ
  liquidity : ℚ
  hours_to_resolution : Option ℚ
  book_yes : Option OrderBook
  book_no : Option OrderBook
  deriving DecidableEq

/-- `ScanConfig` dataclass fields used by the scoring path. -/
structure ScanConfig where
  min_score : ℤ := 0
  min_volume : ℚ := 0
  min_liquidity : ℚ := 0
  deriving DecidableEq

/-- `OpportunityScore` dataclass (`analyzed_at` omitted: it is only a
wall-clock stamp). -/
structure OpportunityScore where
  market_id : String
  market_name : String
  price_yes : ℚ
  price_no : ℚ
  divergence_score : ℚ
  volume_score : ℚ
  liquidity_score : ℚ
  timing_score : ℚ
  activity_score : ℚ
  total_score : ℤ
  volume_24h : ℚ
  liquidity : ℚ
  hours_to_resolution : Option ℚ
  deriving DecidableEq

/-! ### Scoring functions -/

/-- `_calc_divergence_score`: `min(10, |1.0 - (yes+no)| * 200)`. -/
def calc_divergence_score (price_yes price_no : ℚ) : ℚ :=
  let total := price_yes + price_no
  let divergence := |1 - total|
  min 10 (divergence * 200)

/-- `_calc_volume_score`: step function of 24h volume. -/
def calc_volume_score (config : ScanConfig) (market : MarketData) : ℚ :=
  let volume := market.volume24hr
  if volume < config.min_volume then 0
  else if volume ≥ 100000 then 10
  else if volume ≥ 50000 then 8
  else if volume ≥ 20000 then 6
  else if volume ≥ 10000 then 5
  else if volume ≥ 5000 then 4
  else if volume ≥ 2000 then 3
  else 2

/-- `_calc_liquidity_score`: step function of summed top-5 bid+ask depth
of the YES book; neutral 5 when no book is available. -/
def calc_liquidity_score (config : ScanConfig) (orderbook : Option OrderBook) : ℚ :=
  match orderbook with
  | none => 5
  | some ob =>
    let bid_depth := ((ob.bids.take 5).map (fun b => b.size)).sum
    let ask_depth := ((ob.asks.take 5).map (fun a => a.size)).sum
    let total_depth := bid_depth + ask_depth
    if total_depth < config.min_liquidity then 0
    else if total_depth ≥ 10000 then 10
    else if total_depth ≥ 5000 then 8
    else if total_depth ≥ 2000 then 6
    else if total_depth ≥ 1000 then 5
    else 3

/-- `_calc_timing_score`: sweet spot 24-168 hours; neutral 5 without data. -/
def calc_timing_score (market : MarketData) : ℚ :=
  match market.hours_to_resolution with
  | none => 5
  | some hours =>
    if 24 ≤ hours ∧ hours ≤ 168 then 10
    else if 12 ≤ hours ∧ hours < 24 then 7
    else if 168 < hours ∧ hours ≤ 336 then 6
    else if hours < 12 then 3
    else 4

/-- `_calc_activity_score`: volume used as a proxy for activity. -/
def calc_activity_score (market : MarketData) : ℚ :=
  let volume := market.volume24hr
  if volume > 50000 then 10
  else if volume > 20000 then 8
  else if volume > 10000 then 6
  else if volume > 5000 then 5
  else if volume > 1000 then 3
  else 1

/-- Best ask of a fetched book: `book["asks"][0]["price"]` when the book
is a dict with a non-empty ask list. -/
def best_ask (book : Option OrderBook) : Option ℚ :=
  match book with
  | some ob =>
    match ob.asks with
    | l :: _ => some l.price
    | [] => none
  | none => none

/-- `_analyze_market` (cache consultation aside, which returns an
identical fresh result; see `get_cached` below).  The ask of a leg
defaults to `1.0` when its book has no asks.  Note the source
weights `0.50 / 0.15 / 0.15 / 0.10 / 0.10`, the zeroing of the
divergence component when `real_cost >= 1.0`, and the boost to 10
when `real_cost < 0.98`. -/
def analyze_market (config : ScanConfig) (market : MarketData) : Option OpportunityScore :=
  if market.token_ids.length < 2 then none
  else
    let token_yes := market.token_ids.getD 0 ""
    let token_no := market.token_ids.getD 1 ""
    if token_yes = "" ∨ token_no = "" then none
    else
      let ask_yes := (best_ask market.book_yes).getD 1
      let ask_no := (best_ask market.book_no).getD 1
      let real_cost := ask_yes + ask_no
      let divergence_score :=
        if real_cost ≥ 1 then 0 else calc_divergence_score ask_yes ask_no
      let volume_score := calc_volume_score config market
      let liquidity_score := calc_liquidity_score config market.book_yes
      let timing_score := calc_timing_score market
      let activity_score := calc_activity_score market
      let total :=
        divergence_score * (1/2) + volume_score * (3/20) + liquidity_score * (3/20) +
        timing_score * (1/10) + activity_score * (1/10)
      let total := if real_cost < 49/50 then 10 else total
      some {
        market_id := market.id
        market_name := market.question
        price_yes := ask_yes
        price_no := ask_no
        divergence_score := divergence_score
        volume_score := volume_score
        liquidity_score := liquidity_score
        timing_score := timing_score
        activity_score := activity_score
        total_score := min 10 (max 1 (py_int total))
        volume_24h := market.volume24hr
        liquidity := market.liquidity
        hours_to_resolution := market.hours_to_resolution }

/-! ### Ranking (`scan_all_markets`)

`opportunities.sort(key=lambda x: x.total_score, reverse=True)` is a
stable descending sort on `total_score`; it is modelled by a stable
insertion sort with the same observable behavior. -/

/-- Insert into a list sorted descending by `total_score`, before the
first element of smaller-or-equal score coming later in the original
order (stability: an earlier element stays in front of equal scores). -/
def insert_desc (x : OpportunityScore) : List OpportunityScore → List OpportunityScore
  | [] => [x]
  | y :: ys =>
    if y.total_score ≤ x.total_score then x :: y :: ys
    else y :: insert_desc x ys

/-- Stable descending-by-score sort. -/
def sort_by_score_desc : List OpportunityScore → List OpportunityScore
  | [] => []
  | x :: xs => insert_desc x (sort_by_score_desc xs)

/-- The result pipeline of `scan_all_markets`: analyze every fetched
market (a `None` analysis is dropped), filter by
`total_score >= config.min_score`, then sort descending by score. -/
def scan_all_markets (config : ScanConfig) (markets : List MarketData) :
    List OpportunityScore :=
  sort_by_score_desc
    ((markets.filterMap (analyze_market config)).filter
      (fun r => config.min_score ≤ r.total_score))

/-! ### Analysis cache -/

/-- The scanner's `_cache` dict plus its `_cache_ttl`, set to 60 seconds
in `AdvancedScanner.__init__`. -/
structure AnalysisCache (V : Type) where
  entries : List (String × ℚ × V)
  cache_ttl : ℚ
  deriving DecidableEq

/-- `self._cache_ttl = 60  # seconds` in `AdvancedScanner.__init__`. -/
def advanced_scanner_cache_ttl : ℚ := 60

/-- `_get_cached`: a hit requires the key present and
`now - cached_time < timedelta(seconds=self._cache_ttl)`. -/
def get_cached {V : Type} (c : AnalysisCache V) (now : ℚ) (key : String) : Option V :=
  match c.entries.find? (fun e => e.1 = key) with
  | some (_, cached_time, value) =>
    if now - cached_time < c.cache_ttl then some value else none
  | none => none

/-- `_set_cached`: store `(datetime.now(), value)` under `key`,
overwriting any previous entry. -/
def set_cached {V : Type} (c : AnalysisCache V) (now : ℚ) (key : String) (value : V) :
    AnalysisCache V :=
  { c with entries := (key, now, value) :: c.entries.filter (fun e => ¬ (e.1 = key)) }

/-! ### Spec-side definitions, for refinement comparison only -/

/-- Modelled from the spec (§4.1): the claimed blended total
`0.40·divergence + 0.20·volume + 0.20·liquidity + 0.10·timing + 0.10·activity`. -/
def spec_weighted_total (r : OpportunityScore) : ℚ :=
  r.divergence_score * (2/5) + r.volume_score * (1/5) + r.liquidity_score * (1/5) +
  r.timing_score * (1/10) + r.activity_score * (1/10)

/-- The weighted sum `_analyze_market` actually computes:
`0.50·divergence + 0.15·volume + 0.15·liquidity + 0.10·timing + 0.10·activity`. -/
def code_weighted_total (r : OpportunityScore) : ℚ :=
  r.divergence_score * (1/2) + r.volume_score * (3/20) + r.liquidity_score * (3/20) +
  r.timing_score * (1/10) + r.activity_score * (1/10)

/-- Modelled from the spec (§4.1):
`estimated_net_profit = 1.0 − (ask_yes + ask_no) − fixed_fee_approximation`.
No such field exists in the source `OpportunityScore`. -/
def spec_estimated_net_profit (fee : ℚ) (r : OpportunityScore) : ℚ :=
  1 - (r.price_yes + r.price_no) - fee

/-- Modelled from the spec (§4.3 step 5): descending lexicographic order on
`(estimated_net_profit, total_score)` — profit dominates, score breaks ties. -/
def spec_rank_le (fee : ℚ) (a b : OpportunityScore) : Prop :=
  spec_estimated_net_profit fee b < spec_estimated_net_profit fee a ∨
  (spec_estimated_net_profit fee b = spec_estimated_net_profit fee a ∧
   b.total_score ≤ a.total_score)

/-! ### Trading data model (`models/`, `auto_trading.py`, `routers/trading.py`) -/

/-- `PositionStatus` enum. -/
inductive PositionStatus
  | active
  | closed
  | liquidated
  deriving DecidableEq

/-- `PositionSide` enum. -/
inductive PositionSide
  | yes
  | no
  | both
  deriving DecidableEq

/-- `TradeSide` enum. -/
inductive TradeSide
  | yes
  | no
  deriving DecidableEq

/-- `TradeType` enum (named `type` on the SQL model). -/
inductive TradeType
  | entry
  | exit
  | partial_exit
  deriving DecidableEq

/-- `Position` row: the fields the trading engine reads and writes.
`current_value_*` are nullable columns, so they carry `Option`; the
`current_price_*` columns are always written before being compared, so
they are plain rationals.  `closed_at`/`created_at` stamps are omitted
(wall clock only). -/
structure Position where
  market_id : String
  market_name : String
  entry_price_yes : ℚ
  entry_price_no : ℚ
  amount_yes : ℚ
  amount_no : ℚ
  current_price_yes : ℚ
  current_price_no : ℚ
  current_value_yes : Option ℚ
  current_value_no : Option ℚ
  pnl : ℚ
  pnl_percent : ℚ
  status : PositionStatus
  active_side : PositionSide
  is_yes_closed : Bool
  is_no_closed : Bool
  deriving DecidableEq

/-- `Trade` row as written by `_record_trade` (ids and stamps omitted). -/
structure Trade where
  side : TradeSide
  trade_type : TradeType
  amount : ℚ
  price : ℚ
  total_value : ℚ
  deriving DecidableEq

/-- Events broadcast through the websocket manager. -/
inductive Event
  | position_closed
  | position_opened
  | leg_closed (side : TradeSide)
  | trading_status (is_running is_paused : Bool)
  deriving DecidableEq

/-- Recognizer for `POSITION_CLOSED` broadcasts. -/
def is_position_closed_event : Event → Bool
  | Event.position_closed => true
  | _ => false

/-- `ScannerConfig` row with the columns added by `migrate_v021.py`
(`exit_model`, `leg_stop_loss_percent`, `leg_take_profit_price`).
Defaults as declared on the model / migration. -/
structure ScannerConfig where
  auto_trading_enabled : Bool := false
  scan_interval_seconds : ℤ := 30
  max_markets_per_scan : ℤ := 100
  min_score_to_trade : ℤ := 0
  min_volume_24h : ℚ := 0
  min_liquidity : ℚ := 0
  max_active_positions : ℤ := 0
  max_capital_per_trade : ℚ := 0
  max_total_capital : ℚ := 0
  default_ratio_yes : ℤ := 0
  default_ratio_no : ℤ := 0
  stop_loss_percent : ℚ := 0
  take_profit_percent : ℚ := 0
  exit_model : String := "GLOBAL"
  leg_stop_loss_percent : ℚ := 0
  leg_take_profit_price : ℚ := 0
  deriving DecidableEq

/-- `_record_trade`: `total_value = amount * price`. -/
def record_trade (side : TradeSide) (trade_type : TradeType) (amount price : ℚ) : Trade :=
  { side := side, trade_type := trade_type, amount := amount, price := price,
    total_value := amount * price }

/-- `_close_position`: record an EXIT trade per leg whose current value
is truthy and positive (`if position.current_value_yes and
position.current_value_yes > 0`), mark the position CLOSED, and
broadcast one `POSITION_CLOSED` event. -/
def close_position (p : Position) : Position × List Trade × List Event :=
  let trades :=
    (match p.current_value_yes with
     | some v =>
       if 0 < v then [record_trade TradeSide.yes TradeType.exit p.amount_yes p.current_price_yes]
       else []
     | none => []) ++
    (match p.current_value_no with
     | some v =>
       if 0 < v then [record_trade TradeSide.no TradeType.exit p.amount_no p.current_price_no]
       else []
     | none => [])
  ({ p with status := PositionStatus.closed }, trades, [Event.position_closed])

/-- `AutoTradingEngine.panic_close_all`: close every ACTIVE position in
query order, counting the closes; non-active rows are untouched. -/
def panic_close_all : List Position → List Position × ℕ × List Trade × List Event
  | [] => ([], 0, [], [])
  | p :: rest =>
    let r := panic_close_all rest
    if p.status = PositionStatus.active then
      let c := close_position p
      (c.1 :: r.1, r.2.1 + 1, c.2.1 ++ r.2.2.1, c.2.2 ++ r.2.2.2)
    else
      (p :: r.1, r.2.1, r.2.2.1, r.2.2.2)

/-- `AutoTradingEngine` control flags. -/
structure TradingEngineState where
  is_running : Bool
  is_paused : Bool
  deriving DecidableEq

/-- The state the `/api/trading/panic` endpoint touches: engine flags,
the persisted `auto_trading_enabled` toggle, and the position table. -/
structure TradingSystemState where
  engine : TradingEngineState
  auto_trading_enabled : Bool
  positions : List Position
  deriving DecidableEq

/-- `AutoTradingEngine.stop`: clears `is_running` (leaving `is_paused`
as is) and broadcasts a `TRADING_STATUS` event with both flags false. -/
def engine_stop (e : TradingEngineState) : TradingEngineState × List Event :=
  ({ e with is_running := false }, [Event.trading_status false false])

/-- `POST /api/trading/panic` (`routers/trading.py`): stop the engine,
set `auto_trading_enabled = False` on the config row, then run
`panic_close_all`; the response carries the number of closed positions. -/
def panic_endpoint (s : TradingSystemState) : TradingSystemState × ℕ × List Event :=
  let stop_result := engine_stop s.engine
  let closes := panic_close_all s.positions
  ({ engine := stop_result.1, auto_trading_enabled := false, positions := closes.1 },
   closes.2.1, stop_result.2 ++ closes.2.2.2)

/-! ### Entry (`_enter_position`) -/

/-- `capital = min(config.max_capital_per_trade, config.max_total_capital)`. -/
def entry_capital (config : ScannerConfig) : ℚ :=
  min config.max_capital_per_trade config.max_total_capital

/-- `amount_yes = capital * (config.default_ratio_yes / 100)`. -/
def entry_amount_yes (config : ScannerConfig) : ℚ :=
  entry_capital config * ((config.default_ratio_yes : ℚ) / 100)

/-- `amount_no = capital * (config.default_ratio_no / 100)`. -/
def entry_amount_no (config : ScannerConfig) : ℚ :=
  entry_capital config * ((config.default_ratio_no : ℚ) / 100)

/-- `_enter_position`, after the market/token lookups succeeded: the two
`place_order` outcomes are the `order_yes_ok`/`order_no_ok` flags
(`place_order` returning `None` is a failure).  If both orders failed,
no position is created; otherwise a failed leg's amount is recorded as
`0` and ENTRY trades are recorded only for legs with positive amount. -/
def enter_position (config : ScannerConfig) (opp : OpportunityScore)
    (order_yes_ok order_no_ok : Bool) : Option (Position × List Trade × List Event) :=
  let amount_yes := entry_amount_yes config
  let amount_no := entry_amount_no config
  if ¬ order_yes_ok ∧ ¬ order_no_ok then none
  else
    let real_amount_yes := if order_yes_ok then amount_yes else 0
    let real_amount_no := if order_no_ok then amount_no else 0
    let position : Position := {
      market_id := opp.market_id
      market_name := opp.market_name
      entry_price_yes := opp.price_yes
      entry_price_no := opp.price_no
      amount_yes := real_amount_yes
      amount_no := real_amount_no
      current_price_yes := opp.price_yes
      current_price_no := opp.price_no
      current_value_yes := some real_amount_yes
      current_value_no := some real_amount_no
      pnl := 0
      pnl_percent := 0
      status := PositionStatus.active
      active_side := PositionSide.both
      is_yes_closed := false
      is_no_closed := false }
    let trades :=
      (if real_amount_yes > 0 then
        [record_trade TradeSide.yes TradeType.entry real_amount_yes opp.price_yes]
       else []) ++
      (if real_amount_no > 0 then
        [record_trade TradeSide.no TradeType.entry real_amount_no opp.price_no]
       else [])
    some (position, trades, [Event.position_opened])

/-! ### Monitoring and independent-leg exit -/

/-- `_update_position_prices`, with the two midpoint fetches passed in
(`none` = market lookup failed / fewer than two tokens / no midpoint).
The `if price_yes and price_no:` guard is Python truthiness: `None`
and `0.0` both skip the update.  `pnl_percent` is division-guarded by
`if initial > 0`. -/
def update_position_prices (p : Position) (price_yes price_no : Option ℚ) : Position :=
  match price_yes, price_no with
  | some py, some pn =>
    if py = 0 ∨ pn = 0 then p
    else
      let current_value_yes :=
        if p.entry_price_yes > 0 then some (p.amount_yes * (py / p.entry_price_yes))
        else p.current_value_yes
      let current_value_no :=
        if p.entry_price_no > 0 then some (p.amount_no * (pn / p.entry_price_no))
        else p.current_value_no
      let initial := p.amount_yes + p.amount_no
      let current := current_value_yes.getD 0 + current_value_no.getD 0
      let pnl := current - initial
      { p with
        current_price_yes := py
        current_price_no := pn
        current_value_yes := current_value_yes
        current_value_no := current_value_no
        pnl := pnl
        pnl_percent := if initial > 0 then pnl / initial * 100 else 0 }
  | _, _ => p

/-- `_close_leg`: record an EXIT trade at the given effective price
(the midpoint fetch, falling back to the stored current price), set the
leg's closed flag, recompute `active_side` from the other leg's flag,
and zero the leg's amount and current value; one `LEG_CLOSED` broadcast. -/
def close_leg (p : Position) (side : TradeSide) (price : ℚ) : Position × Trade × List Event :=
  match side with
  | TradeSide.yes =>
    ({ p with
        is_yes_closed := true
        active_side := if ¬ p.is_no_closed then PositionSide.no else PositionSide.both
        amount_yes := 0
        current_value_yes := some 0 },
     record_trade TradeSide.yes TradeType.exit p.amount_yes price,
     [Event.leg_closed TradeSide.yes])
  | TradeSide.no =>
    ({ p with
        is_no_closed := true
        active_side := if ¬ p.is_yes_closed then PositionSide.yes else PositionSide.both
        amount_no := 0
        current_value_no := some 0 },
     record_trade TradeSide.no TradeType.exit p.amount_no price,
     [Event.leg_closed TradeSide.no])

/-- One `_monitor_positions` pass over a single ACTIVE position under
`exit_model == "INDEPENDENT"` (prices already refreshed).  Each leg is
cut when its price fell below `entry * (1 - leg_stop_loss_percent/100)`,
else taken when it reached `leg_take_profit_price`.  `ok_yes`/`ok_no`
model the `try/except` in `_close_leg`: a failed close mutates nothing.
After both leg checks, a position with both flags set becomes CLOSED
and a `POSITION_CLOSED` event is broadcast. -/
def monitor_position_independent (config : ScannerConfig) (ok_yes ok_no : Bool)
    (close_price_yes close_price_no : ℚ) (p : Position) :
    Position × List Trade × List Event :=
  let step_yes : Position × List Trade × List Event :=
    if ¬ p.is_yes_closed ∧
       (p.current_price_yes < p.entry_price_yes * (1 - config.leg_stop_loss_percent / 100) ∨
        p.current_price_yes ≥ config.leg_take_profit_price) then
      if ok_yes then
        let c := close_leg p TradeSide.yes close_price_yes
        (c.1, [c.2.1], c.2.2)
      else (p, [], [])
    else (p, [], [])
  let p1 := step_yes.1
  let step_no : Position × List Trade × List Event :=
    if ¬ p1.is_no_closed ∧
       (p1.current_price_no < p1.entry_price_no * (1 - config.leg_stop_loss_percent / 100) ∨
        p1.current_price_no ≥ config.leg_take_profit_price) then
      if ok_no then
        let c := close_leg p1 TradeSide.no close_price_no
        (c.1, [c.2.1], c.2.2)
      else (p1, [], [])
    else (p1, [], [])
  let p2 := step_no.1
  let finish := p2.is_yes_closed ∧ p2.is_no_closed
  let p3 := if finish then { p2 with status := PositionStatus.closed } else p2
  (p3, step_yes.2.1 ++ step_no.2.1,
   step_yes.2.2 ++ step_no.2.2 ++ (if finish then [Event.position_closed] else []))

/-- Reachable shape of an ACTIVE position under the INDEPENDENT model:
entry creates it with both flags clear and side BOTH, and `_close_leg`
maintains `active_side` as the still-open leg; a position with both
legs closed is never left ACTIVE by a completed monitor pass. -/
def active_leg_consistent (p : Position) : Prop :=
  p.status = PositionStatus.active ∧
  ¬ (p.is_yes_closed = true ∧ p.is_no_closed = true) ∧
  (p.is_yes_closed = true → p.active_side = PositionSide.no) ∧
  (p.is_no_closed = true → p.active_side = PositionSide.yes)

/-! ### Concrete inputs used by counterexamples and witnesses -/

/-- Default `ScanConfig()`. -/
def cfg0 : ScanConfig := {}

/-- Market with balanced asks (`0.50 + 0.50 = 1.00`), heavy volume,
deep YES book, and a 100-hour horizon: every non-divergence component
scores 10 while the divergence component is zeroed. -/
def m_c1 : MarketData :=
  { id := "m1", question := "q1", token_ids := ["t1", "t2"]
    volume24hr := 100000, liquidity := 0, hours_to_resolution := some 100
    book_yes := some { bids := [], asks := [{ price := 1/2, size := 10000 }] }
    book_no := some { bids := [], asks := [{ price := 1/2, size := 100 }] } }

/-- Market whose true cost `0.55 + 0.50 = 1.05` exceeds `1.02`, with
heavy volume, deep YES book, and a 100-hour horizon. -/
def m_c4 : MarketData :=
  { id := "m4", question := "q4", token_ids := ["t1", "t2"]
    volume24hr := 100000, liquidity := 0, hours_to_resolution := some 100
    book_yes := some { bids := [], asks := [{ price := 11/20, size := 10000 }] }
    book_no := some { bids := [], asks := [{ price := 1/2, size := 100 }] } }

/-- Market with two valid tokens, a zero best ask on the YES book, and
no NO book at all. -/
def m_c5 : MarketData :=
  { id := "m5", question := "q5", token_ids := ["t1", "t2"]
    volume24hr := 0, liquidity := 0, hours_to_resolution := none
    book_yes := some { bids := [], asks := [{ price := 0, size := 5 }] }
    book_no := none }

/-- Thin market with asks `0.49 + 0.50 = 0.99`: the cheaper (more
profitable) of the two markets fed to the ranking counterexample. -/
def m_a : MarketData :=
  { id := "ma", question := "qa", token_ids := ["t1", "t2"]
    volume24hr := 0, liquidity := 0, hours_to_resolution := none
    book_yes := some { bids := [], asks := [{ price := 49/100, size := 100 }] }
    book_no := some { bids := [], asks := [{ price := 1/2, size := 100 }] } }

/-- Heavy market with asks summing to exactly `1.00`: less profitable
than `m_a` but with a far higher blended score. -/
def m_b : MarketData :=
  { id := "mb", question := "qb", token_ids := ["t1", "t2"]
    volume24hr := 100000, liquidity := 0, hours_to_resolution := some 100
    book_yes := some { bids := [], asks := [{ price := 1/2, size := 10000 }] }
    book_no := some { bids := [], asks := [{ price := 1/2, size := 100 }] } }

/-- The analysis result of `m_a`. -/
def r_a : OpportunityScore :=
  { market_id := "ma", market_name := "qa", price_yes := 49/100, price_no := 1/2
    divergence_score := 2, volume_score := 2, liquidity_score := 3
    timing_score := 5, activity_score := 1, total_score := 2
    volume_24h := 0, liquidity := 0, hours_to_resolution := none }

/-- The analysis result of `m_b`. -/
def r_b : OpportunityScore :=
  { market_id := "mb", market_name := "qb", price_yes := 1/2, price_no := 1/2
    divergence_score := 0, volume_score := 10, liquidity_score := 10
    timing_score := 10, activity_score := 10, total_score := 5
    volume_24h := 100000, liquidity := 0, hours_to_resolution := some 100 }

/-- Minimal valid market: two tokens, no books, no volume. -/
def m_w : MarketData :=
  { id := "m8", question := "q8", token_ids := ["t1", "t2"]
    volume24hr := 0, liquidity := 0, hours_to_resolution := none
    book_yes := none, book_no := none }

/-- The analysis result of `m_w`: both asks default to 1, the blend is
`1.65`, and the clamp floors the score at 1. -/
def r_w : OpportunityScore :=
  { market_id := "m8", market_name := "q8", price_yes := 1, price_no := 1
    divergence_score := 0, volume_score := 2, liquidity_score := 5
    timing_score := 5, activity_score := 1, total_score := 1
    volume_24h := 0, liquidity := 0, hours_to_resolution := none }

/-- A cache holding one entry stamped at time 0, with the scanner's ttl. -/
def c_c9 : AnalysisCache ℕ :=
  { entries := [("analysis_m1", 0, 7)], cache_ttl := advanced_scanner_cache_ttl }

/-- A one-entry cache with the scanner's ttl, for the freshness witness. -/
def c_w9 : AnalysisCache ℕ :=
  { entries := [("k", 0, 42)], cache_ttl := advanced_scanner_cache_ttl }

/-- An INDEPENDENT-model configuration (the defaults the scanner router
backfills: leg stop-loss 5 %, leg take-profit price 0.98). -/
def cfg_ind : ScannerConfig :=
  { exit_model := "INDEPENDENT", leg_stop_loss_percent := 5, leg_take_profit_price := 98/100 }

/-- A freshly entered two-leg position whose prices sit inside both leg
bands (no stop-loss, no take-profit triggers). -/
def p_w6 : Position :=
  { market_id := "pm", market_name := "qm"
    entry_price_yes := 2/5, entry_price_no := 3/5
    amount_yes := 60, amount_no := 40
    current_price_yes := 2/5, current_price_no := 3/5
    current_value_yes := some 60, current_value_no := some 40
    pnl := 0, pnl_percent := 0
    status := PositionStatus.active, active_side := PositionSide.both
    is_yes_closed := false, is_no_closed := false }

/-- A position whose two legs were both zeroed (e.g. after two leg
closes): initial capital is `0 + 0 = 0`. -/
def p_w10 : Position :=
  { market_id := "pz", market_name := "qz"
    entry_price_yes := 1/2, entry_price_no := 1/2
    amount_yes := 0, amount_no := 0
    current_price_yes := 1/2, current_price_no := 1/2
    current_value_yes := some 0, current_value_no := some 0
    pnl := 0, pnl_percent := 0
    status := PositionStatus.active, active_side := PositionSide.both
    is_yes_closed := true, is_no_closed := true }

/-! ## Helper lemmas -/

theorem t1_ne : ("t1" : String) ≠ "" := by decide

theorem t2_ne : ("t2" : String) ≠ "" := by decide

theorem analyze_m_a_eval : analyze_market cfg0 m_a = some r_a := by
  simp only [analyze_market, cfg0, m_a, r_a, best_ask, calc_divergence_score,
    calc_volume_score, calc_liquidity_score, calc_timing_score, calc_activity_score, py_int]
  norm_num [t1_ne, t2_ne, min_def, abs_of_nonneg]

theorem analyze_m_b_eval : analyze_market cfg0 m_b = some r_b := by
  simp only [analyze_market, cfg0, m_b, r_b, best_ask, calc_divergence_score,
    calc_volume_score, calc_liquidity_score, calc_timing_score, calc_activity_score, py_int]
  norm_num [t1_ne, t2_ne, min_def, abs_of_nonneg]

theorem analyze_m_w_eval : analyze_market cfg0 m_w = some r_w := by
  simp only [analyze_market, cfg0, m_w, r_w, best_ask, calc_divergence_score,
    calc_volume_score, calc_liquidity_score, calc_timing_score, calc_activity_score, py_int]
  norm_num [t1_ne, t2_ne, min_def, abs_of_nonneg]

theorem insert_desc_perm (x : OpportunityScore) (l : List OpportunityScore) :
    (insert_desc x l).Perm (x :: l) := by
  induction l with
  | nil => simp [insert_desc]
  | cons y ys ih =>
    simp only [insert_desc]
    split
    · exact List.Perm.refl _
    · exact (ih.cons y).trans (List.Perm.swap x y ys)

theorem sort_by_score_desc_perm (l : List OpportunityScore) :
    (sort_by_score_desc l).Perm l := by
  induction l with
  | nil => simp [sort_by_score_desc]
  | cons x xs ih => exact (insert_desc_perm x _).trans (ih.cons x)

theorem pairwise_insert_desc (x : OpportunityScore) (l : List OpportunityScore)
    (h : l.Pairwise (fun a b => b.total_score ≤ a.total_score)) :
    (insert_desc x l).Pairwise (fun a b => b.total_score ≤ a.total_score) := by
  induction l with
  | nil => simp [insert_desc]
  | cons y ys ih =>
    rcases List.pairwise_cons.mp h with ⟨hy, hys⟩
    simp only [insert_desc]
    split
    · next hle =>
      refine List.pairwise_cons.mpr ⟨?_, h⟩
      intro z hz
      rcases List.mem_cons.mp hz with rfl | hz'
      · exact hle
      · exact le_trans (hy z hz') hle
    · next hgt =>
      refine List.pairwise_cons.mpr ⟨?_, ih hys⟩
      intro z hz
      rcases List.mem_cons.mp ((insert_desc_perm x ys).mem_iff.mp hz) with rfl | hz'
      · exact le_of_lt (lt_of_not_le hgt)
      · exact hy z hz'

theorem panic_close_all_spec (ps : List Position) :
    (panic_close_all ps).1 =
      ps.map (fun p => if p.status = PositionStatus.active
                       then { p with status := PositionStatus.closed } else p) ∧
    (panic_close_all ps).2.1 =
      (ps.filter (fun p => decide (p.status = PositionStatus.active))).length ∧
    ((panic_close_all ps).2.2.2.countP is_position_closed_event) =
      (panic_close_all ps).2.1 := by
  induction ps with
  | nil => simp [panic_close_all]
  | cons p rest ih =>
    rcases ih with ⟨ih1, ih2, ih3⟩
    simp only [panic_close_all]
    split
    · next ha =>
      refine ⟨?_, ?_, ?_⟩
      · simp [close_position, ha, ih1]
      · simp [ha, ih2]
      · simp [close_position, List.countP_append, is_position_closed_event, ih3]
    · next ha =>
      refine ⟨?_, ?_, ?_⟩
      · simp [ha, ih1]
      · simp [ha, ih2]
      · simp [ih3]

/-! ## Claims -/

/-- C1 (counterexample): on a market with balanced asks, heavy volume,
deep book and a 100-hour horizon, the scanner's `total_score` is 5,
while the clamp of the spec's claimed `0.40/0.20/0.20/0.10/0.10`
blend of the very same component scores would be 6: the claimed weights
are not the ones the code uses. -/
theorem C1_counterexample :
    (analyze_market cfg0 m_c1).map (fun r => r.total_score) = some 5 ∧
    (analyze_market cfg0 m_c1).map
      (fun r => min 10 (max 1 (py_int (spec_weighted_total r)))) = some 6 := by
  have h : analyze_market cfg0 m_c1 = some
      { market_id := "m1", market_name := "q1", price_yes := 1/2, price_no := 1/2
        divergence_score := 0, volume_score := 10, liquidity_score := 10
        timing_score := 10, activity_score := 10, total_score := 5
        volume_24h := 100000, liquidity := 0, hours_to_resolution := some 100 } := by
    simp only [analyze_market, cfg0, m_c1, best_ask, calc_divergence_score, calc_volume_score,
      calc_liquidity_score, calc_timing_score, calc_activity_score, py_int]
    norm_num [t1_ne, t2_ne, min_def, abs_of_nonneg]
  rw [h]
  constructor
  · rfl
  · norm_num [spec_weighted_total, py_int]

/-- C1 (amended): for every produced `OpportunityScore`, the blended
total is `0.50·divergence + 0.15·volume + 0.15·liquidity +
0.10·timing + 0.10·activity`, replaced by 10 when the true cost
(`ask_yes + ask_no`) is below 0.98, and `total_score` is this value
truncated to an integer, then floored at 1 and capped at 10. -/
theorem C1_total_score_weights (config : ScanConfig) (market : MarketData)
    (r : OpportunityScore) (h : analyze_market config market = some r) :
    r.total_score = min 10 (max 1 (py_int
      (if r.price_yes + r.price_no < 49/50 then 10 else code_weighted_total r))) := by
  simp only [analyze_market] at h
  split at h
  · exact absurd h (by simp)
  · split at h
    · exact absurd h (by simp)
    · obtain rfl := (Option.some.inj h).symm
      rfl

/-- C1 (witness): the amended statement evaluated on the minimal valid
market `m_w`. -/
theorem C1_witness :
    r_w.total_score = min 10 (max 1 (py_int
      (if r_w.price_yes + r_w.price_no < 49/50 then 10 else code_weighted_total r_w))) :=
  C1_total_score_weights cfg0 m_w r_w analyze_m_w_eval

/-- C2 (counterexample): scanning `[m_a, m_b]` returns `[r_b, r_a]`
(sorted by `total_score` 5 before 2), but `r_a` has the strictly higher
spec-side estimated net profit (−0.01 against −0.02 at the 2 % fee
approximation), so the output is not sorted descending by the pair
`(estimated_net_profit, total_score)`. -/
theorem C2_counterexample :
    ¬ List.Pairwise (spec_rank_le (1/50)) (scan_all_markets cfg0 [m_a, m_b]) := by
  have hs : scan_all_markets cfg0 [m_a, m_b] = [r_b, r_a] := by
    simp only [scan_all_markets, List.filterMap, analyze_m_a_eval, analyze_m_b_eval]
    norm_num [sort_by_score_desc, insert_desc, cfg0, r_a, r_b, List.filter]
  rw [hs]
  intro hp
  have h1 := (List.pairwise_cons.mp hp).1 r_a (by simp)
  rcases h1 with hlt | ⟨heq, _⟩
  · norm_num [spec_estimated_net_profit, r_a, r_b] at hlt
  · norm_num [spec_estimated_net_profit, r_a, r_b] at heq

/-- C2 (amended): the scan output is the analyzed-and-filtered
opportunity list sorted descending by `total_score` alone (a stable
sort on the single score key; estimated net profit is not consulted and
is not even a field of the result): the output is pairwise descending
in `total_score` and is a permutation of the filtered analysis
results. -/
theorem C2_scan_sorted (config : ScanConfig) (markets : List MarketData) :
    ((scan_all_markets config markets).Pairwise
      (fun a b => b.total_score ≤ a.total_score)) ∧
    (scan_all_markets config markets).Perm
      ((markets.filterMap (analyze_market config)).filter
        (fun r => config.min_score ≤ r.total_score)) := by
  constructor
  · have : ∀ l : List OpportunityScore,
        (sort_by_score_desc l).Pairwise (fun a b => b.total_score ≤ a.total_score) := by
      intro l
      induction l with
      | nil => simp [sort_by_score_desc]
      | cons x xs ih => exact pairwise_insert_desc x _ ih
    exact this _
  · exact sort_by_score_desc_perm _

/-- C4 (counterexample): `m_c4` has true cost `0.55 + 0.50 = 1.05`,
beyond the claimed certain-loss bound `1.02`, yet its `total_score` is
5, not the claimed forced floor of 1 — the code only zeroes the
divergence component when the cost reaches 1.0, and the other weighted
components still contribute. -/
theorem C4_counterexample :
    (51 : ℚ)/50 < 21/20 ∧
    (analyze_market cfg0 m_c4).map
      (fun r => (r.price_yes + r.price_no, r.total_score)) = some (21/20, 5) := by
  constructor
  · norm_num
  · have h : analyze_market cfg0 m_c4 = some
        { market_id := "m4", market_name := "q4", price_yes := 11/20, price_no := 1/2
          divergence_score := 0, volume_score := 10, liquidity_score := 10
          timing_score := 10, activity_score := 10, total_score := 5
          volume_24h := 100000, liquidity := 0, hours_to_resolution := some 100 } := by
      simp only [analyze_market, cfg0, m_c4, best_ask, calc_divergence_score, calc_volume_score,
        calc_liquidity_score, calc_timing_score, calc_activity_score, py_int]
      norm_num [t1_ne, t2_ne, min_def, abs_of_nonneg]
    rw [h]
    norm_num

/-- C4 (amended): the code's overrides are: when the true cost
`ask_yes + ask_no` is below 0.98 (positive estimated profit after the
fixed 2 % fee approximation), `total_score` is forced to 10 regardless
of liquidity; and when the true cost reaches 1.0, the divergence
component is zeroed (there is no forcing of the total to 1 at cost
1.02 — the remaining components still contribute). -/
theorem C4_overrides (config : ScanConfig) (market : MarketData)
    (r : OpportunityScore) (h : analyze_market config market = some r) :
    (r.price_yes + r.price_no < 49/50 → r.total_score = 10) ∧
    (1 ≤ r.price_yes + r.price_no → r.divergence_score = 0) := by
  simp only [analyze_market] at h
  split at h
  · exact absurd h (by simp)
  · split at h
    · exact absurd h (by simp)
    · obtain rfl := (Option.some.inj h).symm
      constructor
      · intro hc
        simp only [hc, if_pos, ge_iff_le]
        norm_num [py_int]
      · intro hc
        simp [ge_iff_le, hc]

/-- C4 (witness): the overrides evaluated on the balanced market `m_b`
(cost exactly 1): its divergence component is zeroed. -/
theorem C4_witness :
    (r_b.price_yes + r_b.price_no < 49/50 → r_b.total_score = 10) ∧
    (1 ≤ r_b.price_yes + r_b.price_no → r_b.divergence_score = 0) :=
  C4_overrides cfg0 m_b r_b analyze_m_b_eval

/-- C5 (counterexample): `m_c5` has two valid outcome tokens but no NO
order book at all and a zero best ask on its YES book; analysis still
produces a result (prices default to the zero ask and to 1.0) instead
of excluding the market. -/
theorem C5_counterexample :
    m_c5.book_no = none ∧ best_ask m_c5.book_yes = some 0 ∧
    (analyze_market cfg0 m_c5).map
      (fun r => (r.price_yes, r.price_no, r.total_score)) = some (0, 1, 1) := by
  refine ⟨rfl, rfl, ?_⟩
  have h : analyze_market cfg0 m_c5 = some
      { market_id := "m5", market_name := "q5", price_yes := 0, price_no := 1
        divergence_score := 0, volume_score := 2, liquidity_score := 3
        timing_score := 5, activity_score := 1, total_score := 1
        volume_24h := 0, liquidity := 0, hours_to_resolution := none } := by
    simp only [analyze_market, cfg0, m_c5, best_ask, calc_divergence_score, calc_volume_score,
      calc_liquidity_score, calc_timing_score, calc_activity_score, py_int]
    norm_num [t1_ne, t2_ne, min_def, abs_of_nonneg]
  rw [h]
  rfl

/-- C5 (amended): analysis excludes a market exactly when it lacks two
outcome tokens or either of the first two token ids is missing; a leg
without an ask silently defaults to an ask of 1.0 and a zero best ask
is accepted, so such markets are still scored rather than excluded. -/
theorem C5_only_token_checks_reject (config : ScanConfig) (market : MarketData) :
    analyze_market config market = none ↔
      (market.token_ids.length < 2 ∨
       market.token_ids.getD 0 "" = "" ∨ market.token_ids.getD 1 "" = "") := by
  simp only [analyze_market]
  split
  · next hlen => simp [hlen]
  · next hlen =>
    split
    · next htok =>
      simp [hlen]
      simpa using htok
    · next htok =>
      simp only [not_or] at htok
      simp [hlen]
      exact ⟨by simpa using htok.1, by simpa using htok.2⟩

/-- C3: the panic endpoint, from any engine state (running or paused)
and any position table, clears `is_running`, persists
`auto_trading_enabled = false`, returns the count of previously ACTIVE
positions, broadcasts exactly that many `POSITION_CLOSED` events, and
marks exactly the previously ACTIVE positions CLOSED (all other rows
untouched). -/
theorem C3_panic_close (s : TradingSystemState) :
    (panic_endpoint s).1.engine.is_running = false ∧
    (panic_endpoint s).1.auto_trading_enabled = false ∧
    (panic_endpoint s).2.1 =
      (s.positions.filter (fun p => decide (p.status = PositionStatus.active))).length ∧
    ((panic_endpoint s).2.2.countP is_position_closed_event) = (panic_endpoint s).2.1 ∧
    (panic_endpoint s).1.positions =
      s.positions.map (fun p => if p.status = PositionStatus.active
                                then { p with status := PositionStatus.closed } else p) := by
  obtain ⟨h1, h2, h3⟩ := panic_close_all_spec s.positions
  refine ⟨rfl, rfl, h2, ?_, h1⟩
  simpa [panic_endpoint, engine_stop, is_position_closed_event, List.countP_cons] using h3

/-- C6: under the INDEPENDENT exit model, one monitoring pass over a
consistent ACTIVE position ends CLOSED exactly when both leg-closed
flags are set afterwards; with exactly one leg closed the position
stays ACTIVE and `active_side` is the remaining open leg. -/
theorem C6_independent_iff (config : ScannerConfig) (ok_yes ok_no : Bool)
    (cy cn : ℚ) (p : Position) (h : active_leg_consistent p) :
    ((monitor_position_independent config ok_yes ok_no cy cn p).1.status =
        PositionStatus.closed ↔
      ((monitor_position_independent config ok_yes ok_no cy cn p).1.is_yes_closed = true ∧
       (monitor_position_independent config ok_yes ok_no cy cn p).1.is_no_closed = true)) ∧
    ((monitor_position_independent config ok_yes ok_no cy cn p).1.is_yes_closed = true ∧
     (monitor_position_independent config ok_yes ok_no cy cn p).1.is_no_closed = false →
      (monitor_position_independent config ok_yes ok_no cy cn p).1.status =
        PositionStatus.active ∧
      (monitor_position_independent config ok_yes ok_no cy cn p).1.active_side =
        PositionSide.no) ∧
    ((monitor_position_independent config ok_yes ok_no cy cn p).1.is_no_closed = true ∧
     (monitor_position_independent config ok_yes ok_no cy cn p).1.is_yes_closed = false →
      (monitor_position_independent config ok_yes ok_no cy cn p).1.status =
        PositionStatus.active ∧
      (monitor_position_independent config ok_yes ok_no cy cn p).1.active_side =
        PositionSide.yes) := by
  obtain ⟨hact, hboth, hyimp, hnimp⟩ := h
  simp only [monitor_position_independent, close_leg]
  split_ifs <;> simp_all

/-- C6 (witness): a fresh two-leg position inside both leg bands passes
a monitoring cycle untouched: not CLOSED, both flags clear. -/
theorem C6_witness :
    ((monitor_position_independent cfg_ind true true (2/5) (3/5) p_w6).1.status =
        PositionStatus.closed ↔
      ((monitor_position_independent cfg_ind true true (2/5) (3/5) p_w6).1.is_yes_closed = true ∧
       (monitor_position_independent cfg_ind true true (2/5) (3/5) p_w6).1.is_no_closed = true)) ∧
    ((monitor_position_independent cfg_ind true true (2/5) (3/5) p_w6).1.is_yes_closed = true ∧
     (monitor_position_independent cfg_ind true true (2/5) (3/5) p_w6).1.is_no_closed = false →
      (monitor_position_independent cfg_ind true true (2/5) (3/5) p_w6).1.status =
        PositionStatus.active ∧
      (monitor_position_independent cfg_ind true true (2/5) (3/5) p_w6).1.active_side =
        PositionSide.no) ∧
    ((monitor_position_independent cfg_ind true true (2/5) (3/5) p_w6).1.is_no_closed = true ∧
     (monitor_position_independent cfg_ind true true (2/5) (3/5) p_w6).1.is_yes_closed = false →
      (monitor_position_independent cfg_ind true true (2/5) (3/5) p_w6).1.status =
        PositionStatus.active ∧
      (monitor_position_independent cfg_ind true true (2/5) (3/5) p_w6).1.active_side =
        PositionSide.yes) :=
  C6_independent_iff cfg_ind true true (2/5) (3/5) p_w6
    (by simp [active_leg_consistent, p_w6])

/-- C7: entry places two independent leg orders; if both placements
fail no position is created; if exactly one succeeds, the position
carries the successful leg's computed amount and zero on the failed
leg, and an ENTRY trade is recorded only for a leg with positive
amount. -/
theorem C7_entry_policy (config : ScannerConfig) (opp : OpportunityScore) :
    enter_position config opp false false = none ∧
    ((enter_position config opp true false).map
        (fun res => (res.1.amount_yes, res.1.amount_no)) =
      some (entry_amount_yes config, 0)) ∧
    ((enter_position config opp false true).map
        (fun res => (res.1.amount_yes, res.1.amount_no)) =
      some (0, entry_amount_no config)) ∧
    ((enter_position config opp true false).map (fun res => res.2.1) =
      some (if entry_amount_yes config > 0 then
              [record_trade TradeSide.yes TradeType.entry (entry_amount_yes config) opp.price_yes]
            else [])) ∧
    ((enter_position config opp false true).map (fun res => res.2.1) =
      some (if entry_amount_no config > 0 then
              [record_trade TradeSide.no TradeType.entry (entry_amount_no config) opp.price_no]
            else [])) := by
  refine ⟨by simp [enter_position], ?_, ?_, ?_, ?_⟩ <;> simp [enter_position]

/-- C8: every `OpportunityScore` produced by market analysis has
`1 ≤ total_score ≤ 10`; in particular the score is never 0. -/
theorem C8_score_bounds (config : ScanConfig) (market : MarketData)
    (r : OpportunityScore) (h : analyze_market config market = some r) :
    1 ≤ r.total_score ∧ r.total_score ≤ 10 := by
  simp only [analyze_market] at h
  split at h
  · exact absurd h (by simp)
  · split at h
    · exact absurd h (by simp)
    · obtain rfl := (Option.some.inj h).symm
      exact ⟨le_min (by norm_num) (le_max_left 1 _), min_le_left 10 _⟩

/-- C8 (witness): the minimal valid market `m_w` scores exactly the
floor 1, inside the bounds. -/
theorem C8_witness : 1 ≤ r_w.total_score ∧ r_w.total_score ≤ 10 :=
  C8_score_bounds cfg0 m_w r_w analyze_m_w_eval

/-- C9 (counterexample): the scanner's cache ttl is 60 seconds, not
30: a lookup 45 seconds after the entry was stored — stale under the
claimed 30-second default — still hits. -/
theorem C9_counterexample :
    (45 : ℚ) - 0 ≥ 30 ∧ get_cached c_c9 45 "analysis_m1" = some 7 := by
  constructor
  · norm_num
  · simp only [get_cached, c_c9, List.find?]
    norm_num [advanced_scanner_cache_ttl]

/-- C9 (amended): for a cached key with stored timestamp `t`, a lookup
at time `now` hits exactly when `now - t < ttl` (strict, lazy expiry);
the scanner's default ttl is 60 seconds, not 30. -/
theorem C9_cache_freshness {V : Type} (c : AnalysisCache V) (now : ℚ)
    (key : String) (t : ℚ) (v : V)
    (hfind : c.entries.find? (fun e => e.1 = key) = some (key, t, v)) :
    (get_cached c now key = some v ↔ now - t < c.cache_ttl) ∧
    advanced_scanner_cache_ttl = 60 := by
  refine ⟨?_, rfl⟩
  simp only [get_cached, hfind]
  split
  · next hlt => simp [hlt]
  · next hge => simp [hge]

/-- C9 (witness): a fresh lookup (10 seconds after storing) on a
one-entry cache with the scanner's ttl. -/
theorem C9_witness :
    (get_cached c_w9 10 "k" = some 42 ↔ (10 : ℚ) - 0 < c_w9.cache_ttl) ∧
    advanced_scanner_cache_ttl = 60 :=
  C9_cache_freshness c_w9 10 "k" 0 42 (by simp [c_w9, List.find?])

/-- C10: when a monitoring price refresh actually runs (both midpoints
fetched and truthy), `pnl_percent` is division-guarded: zero initial
capital (`amount_yes + amount_no = 0`) yields `pnl_percent = 0` with no
division, and positive initial capital yields
`pnl_percent = pnl / initial × 100`. -/
theorem C10_pnl_percent_guard (p : Position) (py pn : ℚ)
    (hy : py ≠ 0) (hn : pn ≠ 0)
    (hay : 0 ≤ p.amount_yes) (han : 0 ≤ p.amount_no) :
    (p.amount_yes + p.amount_no = 0 →
      (update_position_prices p (some py) (some pn)).pnl_percent = 0) ∧
    (p.amount_yes + p.amount_no ≠ 0 →
      (update_position_prices p (some py) (some pn)).pnl_percent =
        (update_position_prices p (some py) (some pn)).pnl /
          (p.amount_yes + p.amount_no) * 100) := by
  simp only [update_position_prices]
  rw [if_neg (by tauto)]
  constructor
  · intro h0
    simp [h0]
  · intro hne
    have hpos : 0 < p.amount_yes + p.amount_no :=
      lt_of_le_of_ne (add_nonneg hay han) (Ne.symm hne)
    simp [hpos]

/-- C10 (witness): a position with both leg amounts zeroed gets
`pnl_percent = 0` from the guard, not a division by zero. -/
theorem C10_witness :
    (p_w10.amount_yes + p_w10.amount_no = 0 →
      (update_position_prices p_w10 (some (1/2)) (some (1/2))).pnl_percent = 0) ∧
    (p_w10.amount_yes + p_w10.amount_no ≠ 0 →
      (update_position_prices p_w10 (some (1/2)) (some (1/2))).pnl_percent =
        (update_position_prices p_w10 (some (1/2)) (some (1/2))).pnl /
          (p_w10.amount_yes + p_w10.amount_no) * 100) :=
  C10_pnl_percent_guard p_w10 (1/2) (1/2) (by norm_num) (by norm_num)
    (by norm_num [p_w10]) (by norm_num [p_w10])

end PolyBot
